import Mathlib

/-!
Verification of the user CRUD service (rust-api-crud).

Shallow embedding of the handlers in src/handlers/user_handlers.rs, the
calculator endpoint and health endpoints in src/lib.rs, the pool utilities in
src/db/mod.rs, and the model types in src/models/user.rs.

Modelling choices:
- `Uuid` is modelled as `Nat`; the store generates fresh identifiers from a
  counter `nextId` carried in the store state.
- `DateTime<Utc>` is modelled as `Int` (`now` in the store state is the value
  the store would use for `NOW()` / column defaults).
- The relational store is a `DbState`: a list of user rows plus the clock and
  the identifier generator.  The schema (spec section 6) declares `email`
  unique, so an INSERT of a duplicate email raises a unique-violation database
  error.  Driver-level failures that do not depend on the data (connection
  loss, timeouts) are injected through an explicit `fault : Option SqlxError`
  argument, mirroring that any sqlx call can fail with such an error.
- `f64` values of the calculator are modelled as exact rationals; the two
  operations with no exact rational semantics (`powf`, float `%`) produce
  symbolic values, which is enough because no branch of the handler inspects
  their numeric result.
-/

/-- HTTP status codes used by the handlers (axum `StatusCode` values that occur
in the source). -/
inductive StatusCode
  | ok
  | created
  | noContent
  | notFound
  | conflict
  | internalServerError
  | notImplemented
  | serviceUnavailable
deriving DecidableEq

/-- Numeric value of each status code. -/
def StatusCode.code : StatusCode → Nat
  | .ok => 200
  | .created => 201
  | .noContent => 204
  | .notFound => 404
  | .conflict => 409
  | .internalServerError => 500
  | .notImplemented => 501
  | .serviceUnavailable => 503

/-- A database-level error as exposed by sqlx: the only attribute the handlers
inspect is whether it is a unique-constraint violation. -/
structure DatabaseError where
  unique_violation : Bool
deriving DecidableEq

/-- An sqlx error: either a database error (constraint violation etc.) or a
non-database error (connection, io, protocol). -/
inductive SqlxError
  | database (err : DatabaseError)
  | io
deriving DecidableEq

/-- sqlx `Error::as_database_error`: exposes the database error when there is
one. -/
def SqlxError.as_database_error : SqlxError → Option DatabaseError
  | .database e => some e
  | .io => none

/-- sqlx `DatabaseError::is_unique_violation`. -/
def DatabaseError.is_unique_violation (e : DatabaseError) : Bool :=
  e.unique_violation

/-- Whether an sqlx error reports a unique-constraint violation, phrased
through `as_database_error` exactly as the handler observes it. -/
def SqlxError.isUniqueViolation (e : SqlxError) : Bool :=
  match e.as_database_error with
  | some db => db.is_unique_violation
  | none => false

/-- src/models/user.rs: the `User` row (id, name, email, created_at,
updated_at). -/
structure User where
  id : Nat
  name : String
  email : String
  created_at : Int
  updated_at : Int
deriving DecidableEq

/-- src/models/user.rs: `CreateUserRequest` (name and email, both required). -/
structure CreateUserRequest where
  name : String
  email : String
deriving DecidableEq

/-- src/models/user.rs: `UpdateUserRequest` (both fields optional). -/
structure UpdateUserRequest where
  name : Option String
  email : Option String
deriving DecidableEq

/-- src/models/user.rs: `UserListResponse`. -/
structure UserListResponse where
  users : List User
  total : Int
  page : Int
  per_page : Int
  total_pages : Int
deriving DecidableEq

/-- src/models/user.rs: `Pagination` query parameters. -/
structure Pagination where
  page : Int
  per_page : Int
deriving DecidableEq

/-- src/models/user.rs: `default_page`. -/
def default_page : Int := 1

/-- src/models/user.rs: `default_per_page`. -/
def default_per_page : Int := 10

/-- Deserialization of `Pagination` from the query string: serde replaces an
absent field by the named default (`#[serde(default = "default_page")]`,
`#[serde(default = "default_per_page")]`) and takes a present field as given. -/
def parsePagination (page : Option Int) (per_page : Option Int) : Pagination :=
  { page := page.getD default_page, per_page := per_page.getD default_per_page }

/-- The relational store backing the service: the `users` relation, the store
clock (value of `NOW()` and of the timestamp column defaults), and the
identifier generator for `id` defaults. -/
structure DbState where
  users : List User
  now : Int
  nextId : Nat
deriving DecidableEq

/-- The ids of the rows currently in the store are pairwise distinct (the `id`
column is the primary key). -/
def idsNodup (st : DbState) : Prop :=
  (st.users.map User.id).Nodup

/-- Every id in the store was produced by the generator: all ids are below the
generator counter.  This is the invariant that makes a freshly generated id
distinct from every stored id. -/
def idsBounded (st : DbState) : Prop :=
  ∀ u ∈ st.users, u.id < st.nextId

instance (st : DbState) : Decidable (idsNodup st) := by
  unfold idsNodup; infer_instance

instance (st : DbState) : Decidable (idsBounded st) := by
  unfold idsBounded; infer_instance

/-- The store executing
`INSERT INTO users (name, email) VALUES ($1, $2) RETURNING id, name, email, created_at, updated_at`.
A duplicate email violates the unique constraint on `email` and yields a
unique-violation database error; otherwise the store assigns a fresh id and
sets both timestamps to the current time, and returns the row as stored.
`fault` injects a data-independent driver failure. -/
def insertReturning (st : DbState) (fault : Option SqlxError) (name email : String) :
    Except SqlxError (User × DbState) :=
  match fault with
  | some e => .error e
  | none =>
    if st.users.any (fun u => u.email == email) then
      .error (.database { unique_violation := true })
    else
      let u : User :=
        { id := st.nextId, name := name, email := email,
          created_at := st.now, updated_at := st.now }
      .ok (u, { users := st.users ++ [u], now := st.now, nextId := st.nextId + 1 })

/-- The `map_err` closure of `create_user` (src/handlers/user_handlers.rs,
lines 54-61): a database error that is a unique violation becomes CONFLICT,
everything else becomes INTERNAL_SERVER_ERROR. -/
def createErrorStatus (e : SqlxError) : StatusCode :=
  match e.as_database_error with
  | some db_err =>
      if db_err.is_unique_violation then StatusCode.conflict
      else StatusCode.internalServerError
  | none => StatusCode.internalServerError

/-- src/handlers/user_handlers.rs `create_user`: runs the INSERT, maps store
errors through `createErrorStatus`, and on success returns
`(StatusCode::CREATED, Json(user))` with the row the store returned. -/
def create_user (st : DbState) (fault : Option SqlxError) (payload : CreateUserRequest) :
    Except StatusCode (StatusCode × User) × DbState :=
  match insertReturning st fault payload.name payload.email with
  | .error e => (.error (createErrorStatus e), st)
  | .ok (user, st1) => (.ok (StatusCode.created, user), st1)

/-- src/handlers/user_handlers.rs `get_user`: the body is a stub that returns
`Err(StatusCode::NOT_IMPLEMENTED)` unconditionally. -/
def get_user (_st : DbState) (_id : Nat) : Except StatusCode User :=
  .error StatusCode.notImplemented

/-- src/handlers/user_handlers.rs `list_users`: the body is a stub that returns
`Err(StatusCode::NOT_IMPLEMENTED)` unconditionally. -/
def list_users (_st : DbState) (_pagination : Pagination) :
    Except StatusCode UserListResponse :=
  .error StatusCode.notImplemented

/-- src/handlers/user_handlers.rs `update_user`: the body is a stub that
returns `Err(StatusCode::NOT_IMPLEMENTED)` unconditionally. -/
def update_user (_st : DbState) (_id : Nat) (_payload : UpdateUserRequest) :
    Except StatusCode User :=
  .error StatusCode.notImplemented

/-- The store executing `DELETE FROM users WHERE id = $1`: removes every row
whose id matches and reports the number of rows affected.  `fault` injects a
data-independent driver failure. -/
def deleteWhereId (st : DbState) (fault : Option SqlxError) (id : Nat) :
    Except SqlxError (Nat × DbState) :=
  match fault with
  | some e => .error e
  | none =>
    .ok (st.users.countP (fun u => u.id == id),
         { users := st.users.filter (fun u => u.id != id),
           now := st.now, nextId := st.nextId })

/-- src/handlers/user_handlers.rs `delete_user`: runs the DELETE, then returns
NOT_FOUND when `rows_affected() == 0`, NO_CONTENT otherwise, and
INTERNAL_SERVER_ERROR when the query itself failed. -/
def delete_user (st : DbState) (fault : Option SqlxError) (id : Nat) :
    StatusCode × DbState :=
  match deleteWhereId st fault id with
  | .ok (n, st1) =>
      (if n == 0 then StatusCode.notFound else StatusCode.noContent, st1)
  | .error _ => (StatusCode.internalServerError, st)

/-- src/db/mod.rs: the sqlx `PgPoolOptions` the pool is built from. -/
structure PgPoolOptions where
  max_connections : Nat
  acquire_timeout_secs : Nat
deriving DecidableEq

/-- sqlx `PgPoolOptions::new()`: sqlx defaults (10 connections, 30 s acquire
timeout) before the builder calls override them. -/
def PgPoolOptions.new : PgPoolOptions :=
  { max_connections := 10, acquire_timeout_secs := 30 }

/-- sqlx builder `max_connections`. -/
def PgPoolOptions.withMaxConnections (o : PgPoolOptions) (n : Nat) : PgPoolOptions :=
  { o with max_connections := n }

/-- sqlx builder `acquire_timeout`. -/
def PgPoolOptions.withAcquireTimeout (o : PgPoolOptions) (secs : Nat) : PgPoolOptions :=
  { o with acquire_timeout_secs := secs }

/-- A connection pool: the options it was built with plus its current size and
idle count (what `pool.size()`, `pool.num_idle()` and
`pool.options().get_max_connections()` read). -/
structure PgPool where
  options : PgPoolOptions
  size : Nat
  num_idle : Nat
deriving DecidableEq

/-- sqlx `connect`: fails when the environment injects a failure, otherwise
yields a pool carrying exactly the configured options (fresh pool, no
connections open yet). -/
def PgPoolOptions.connect (o : PgPoolOptions) (fault : Option SqlxError) :
    Except SqlxError PgPool :=
  match fault with
  | some e => .error e
  | none => .ok { options := o, size := 0, num_idle := 0 }

/-- src/db/mod.rs `create_pool`:
`PgPoolOptions::new().max_connections(5).acquire_timeout(Duration::from_secs(3)).connect(url)`. -/
def create_pool (fault : Option SqlxError) : Except SqlxError PgPool :=
  ((PgPoolOptions.new.withMaxConnections 5).withAcquireTimeout 3).connect fault

/-- src/db/mod.rs `get_database_statistics`: the triple
`(pool.size(), pool.num_idle(), pool.options().get_max_connections())`. -/
def get_database_statistics (pool : PgPool) : Nat × Nat × Nat :=
  (pool.size, pool.num_idle, pool.options.max_connections)

/-- src/db/mod.rs `health_check`: executes the trivial query `SELECT 1` on the
pool and propagates its outcome (`?` then `Ok(())`).  `exec` is the pool with
its ability to run a round-trip statement. -/
def health_check (exec : String → Except SqlxError Unit) : Except SqlxError Unit :=
  match exec "SELECT 1" with
  | .ok _ => .ok ()
  | .error e => .error e

/-- The JSON body of a successful health response. -/
structure HealthBody where
  status : String
  message : String
deriving DecidableEq

/-- src/lib.rs `db_health`: runs `db::health_check`; Ok becomes a 200 body
with status ok, any Err becomes `StatusCode::SERVICE_UNAVAILABLE`. -/
def db_health (exec : String → Except SqlxError Unit) : Except StatusCode HealthBody :=
  match health_check exec with
  | .ok _ => .ok { status := "ok", message := "Database connection is healthy" }
  | .error _ => .error StatusCode.serviceUnavailable

/-- src/lib.rs `CalculatorRequest` with the two `f64` fields modelled as exact
rationals. -/
structure CalculatorRequest where
  a : ℚ
  b : ℚ
  op : String
deriving DecidableEq

/-- The numeric result of a calculator operation.  Operations whose float
semantics have no exact rational counterpart (`powf`, float `%`) are kept
symbolic; the handler never inspects their value. -/
inductive CalcNumber
  | num (q : ℚ)
  | powf (a b : ℚ)
  | fmod (a b : ℚ)
deriving DecidableEq

/-- src/lib.rs `CalculatorResponse` (result plus echoed operation). -/
structure CalculatorResponse where
  result : CalcNumber
  operation : String
deriving DecidableEq

/-- src/lib.rs `ErrorResponse`. -/
structure ErrorResponse where
  error : String
deriving DecidableEq

/-- The JSON value the calculator handler returns: either a
`CalculatorResponse` or an `ErrorResponse`. -/
inductive CalcReply
  | ok (r : CalculatorResponse)
  | err (e : ErrorResponse)
deriving DecidableEq

/-- src/lib.rs `calculate`: matches on `op`; `divide` rejects a zero divisor,
`power` rejects a negative exponent (comparison `params.b < 0.0`), an unknown
operation yields the error string with the operation name. -/
def calculate (params : CalculatorRequest) : CalcReply :=
  match params.op with
  | "add" => .ok { result := .num (params.a + params.b), operation := params.op }
  | "subtract" => .ok { result := .num (params.a - params.b), operation := params.op }
  | "multiply" => .ok { result := .num (params.a * params.b), operation := params.op }
  | "divide" =>
      if params.b = 0 then .err { error := "Division by zero" }
      else .ok { result := .num (params.a / params.b), operation := params.op }
  | "modulo" => .ok { result := .fmod params.a params.b, operation := params.op }
  | "power" =>
      if params.b < 0 then
        .err { error := "Power operation requires a positive exponent" }
      else .ok { result := .powf params.a params.b, operation := params.op }
  | "double" => .ok { result := .num (params.a * 2), operation := params.op }
  | other => .err { error := "Unknown operation: " ++ other }

/-- A concrete stored row used to exhibit behaviour at concrete inputs. -/
def aliceStored : User :=
  { id := 0, name := "Alice", email := "alice@example.com",
    created_at := 100, updated_at := 100 }

/-- A concrete store holding `aliceStored`. -/
def demoDb : DbState :=
  { users := [aliceStored], now := 200, nextId := 1 }

/-! ## Helper lemmas -/

/-- When the ids in a list of rows are pairwise distinct, at most one row
matches a given id, so a DELETE by id affects at most one row. -/
theorem countP_id_le_one (l : List User) (i : Nat) (h : (l.map User.id).Nodup) :
    l.countP (fun u => u.id == i) ≤ 1 := by
  induction l with
  | nil => simp
  | cons u t ih =>
    rw [List.map_cons, List.nodup_cons] at h
    rw [List.countP_cons]
    by_cases hu : u.id == i
    · have hzero : t.countP (fun v => v.id == i) = 0 := by
        rw [List.countP_eq_zero]
        intro v hv hvb
        have hvi : v.id = i := by simpa using hvb
        have hui : u.id = i := by simpa using hu
        exact h.1 (List.mem_map.mpr ⟨v, hv, by rw [hvi, hui]⟩)
      simp [hzero, hu]
    · simp only [hu, if_false]
      simpa using ih h.2

/-- Reduction of `delete_user` when the driver does not fail: the DELETE
affects exactly the rows whose id matches, and the handler branches on the
affected-row count. -/
theorem delete_user_reduce (s : DbState) (i : Nat) :
    delete_user s none i =
      (if (s.users.countP (fun u => u.id == i)) == 0 then StatusCode.notFound
       else StatusCode.noContent,
       { users := s.users.filter (fun u => u.id != i),
         now := s.now, nextId := s.nextId }) := rfl

/-- After deleting id `i`, no remaining row has id `i`. -/
theorem countP_filter_ne_self (l : List User) (i : Nat) :
    (l.filter (fun u => u.id != i)).countP (fun u => u.id == i) = 0 := by
  rw [List.countP_eq_zero]
  intro v hv hvb
  have hne := (List.mem_filter.mp hv).2
  simp at hne hvb
  exact hne hvb

/-- Reduction of `calculate` at the "power" operation. -/
theorem calc_power_reduce (a b : ℚ) :
    calculate { a := a, b := b, op := "power" } =
      if b < 0 then .err { error := "Power operation requires a positive exponent" }
      else .ok { result := .powf a b, operation := "power" } := rfl

/-! ## Claim theorems -/

/-- C9: a list request with the page parameter absent defaults it to 1, with
the page-size parameter absent defaults it to 10, and supplied values are
taken exactly as given with no clamping. -/
theorem pagination_defaults_no_clamp (p s : Int) :
    parsePagination none none = { page := 1, per_page := 10 }
  ∧ parsePagination (some p) (some s) = { page := p, per_page := s }
  ∧ parsePagination (some p) none = { page := p, per_page := 10 }
  ∧ parsePagination none (some s) = { page := 1, per_page := s } :=
  ⟨rfl, rfl, rfl, rfl⟩

/-- C10: the calculator "power" operation returns the error string
"Power operation requires a positive exponent" exactly when the exponent is
strictly negative; an exponent of zero is accepted and produces a result. -/
theorem calculate_power_error_iff_negative (a b : ℚ) :
    (calculate { a := a, b := b, op := "power" } =
        .err { error := "Power operation requires a positive exponent" } ↔ b < 0)
  ∧ calculate { a := a, b := 0, op := "power" } =
      .ok { result := .powf a 0, operation := "power" } := by
  constructor
  · rw [calc_power_reduce]
    by_cases h : b < 0
    · simp [h]
    · simp [h]
  · rw [calc_power_reduce, if_neg (lt_irrefl (0 : ℚ))]

/-- C3: the get handler is a stub: even on a store containing a row whose id
matches the request, it returns 501 NOT_IMPLEMENTED instead of the 200/404/500
outcomes the specification describes. -/
theorem get_user_stub_501 :
    get_user demoDb aliceStored.id = .error StatusCode.notImplemented
  ∧ aliceStored ∈ demoDb.users
  ∧ StatusCode.notImplemented.code = 501
  ∧ ∀ u : User, get_user demoDb aliceStored.id ≠ .ok u :=
  ⟨rfl, by simp [demoDb], rfl, fun _ h => Except.noConfusion h⟩

/-- C4: the update handler is a stub: even on a store containing a matching
row and a merge-patch request setting only the name, it returns 501
NOT_IMPLEMENTED instead of applying the patch or reporting 404. -/
theorem update_user_stub_501 :
    update_user demoDb aliceStored.id { name := some "Bob", email := none } =
      .error StatusCode.notImplemented
  ∧ aliceStored ∈ demoDb.users
  ∧ StatusCode.notImplemented.code = 501
  ∧ ∀ u : User,
      update_user demoDb aliceStored.id { name := some "Bob", email := none } ≠ .ok u :=
  ⟨rfl, by simp [demoDb], rfl, fun _ h => Except.noConfusion h⟩

/-- C5: the list handler is a stub: on any pagination input (here the default
page 1, page size 10) it returns 501 NOT_IMPLEMENTED and computes no offset,
total count or total_pages. -/
theorem list_users_stub_501 :
    list_users demoDb (parsePagination none none) = .error StatusCode.notImplemented
  ∧ StatusCode.notImplemented.code = 501
  ∧ ∀ r : UserListResponse, list_users demoDb (parsePagination none none) ≠ .ok r :=
  ⟨rfl, rfl, fun _ h => Except.noConfusion h⟩

/-- C7: the store-health endpoint issues the trivial round-trip query
"SELECT 1"; if that query succeeds the endpoint reports a 200 ok body, if it
fails in any way it reports 503 SERVICE_UNAVAILABLE, and no other outcome is
possible. -/
theorem db_health_two_outcomes (exec : String → Except SqlxError Unit) :
    (exec "SELECT 1" = .ok () →
        db_health exec = .ok { status := "ok", message := "Database connection is healthy" })
  ∧ (∀ e, exec "SELECT 1" = .error e →
        db_health exec = .error StatusCode.serviceUnavailable)
  ∧ (db_health exec = .ok { status := "ok", message := "Database connection is healthy" }
      ∨ db_health exec = .error StatusCode.serviceUnavailable)
  ∧ StatusCode.serviceUnavailable.code = 503 := by
  rcases h : exec "SELECT 1" with e | u
  · refine ⟨?_, ?_, ?_, rfl⟩
    · intro hok
      rw [hok] at h
      exact absurd h (by trivial)
    · intro e2 _
      simp [db_health, health_check, h]
    · right
      simp [db_health, health_check, h]
  · refine ⟨?_, ?_, ?_, rfl⟩
    · intro _
      simp [db_health, health_check, h]
    · intro e2 he
      rw [he] at h
      exact absurd h (by trivial)
    · left
      simp [db_health, health_check, h]

/-- Witness for C7 at a pool whose round-trip query succeeds. -/
theorem db_health_two_outcomes_witness :
    db_health (fun _ => .ok ()) =
      .ok { status := "ok", message := "Database connection is healthy" } :=
  (db_health_two_outcomes (fun _ => .ok ())).1 rfl

/-- C8: the pool is constructed with a maximum of 5 concurrent connections and
an acquire timeout of 3 seconds, and the statistics operation returns the
triple (total connections, idle connections, configured maximum). -/
theorem create_pool_config_and_stats (fault : Option SqlxError) (p : PgPool)
    (h : create_pool fault = .ok p) :
    p.options.max_connections = 5
  ∧ p.options.acquire_timeout_secs = 3
  ∧ get_database_statistics p = (p.size, p.num_idle, 5) := by
  cases fault with
  | some e => exact absurd h (by simp [create_pool, PgPoolOptions.connect])
  | none =>
    have hp := (Except.ok.inj h).symm
    subst hp
    exact ⟨rfl, rfl, rfl⟩

/-- Witness for C8 at a successful connection. -/
theorem create_pool_config_and_stats_witness :
    ∃ p : PgPool,
      p.options.max_connections = 5
    ∧ p.options.acquire_timeout_secs = 3
    ∧ get_database_statistics p = (p.size, p.num_idle, 5) :=
  ⟨{ options := { max_connections := 5, acquire_timeout_secs := 3 },
     size := 0, num_idle := 0 },
   create_pool_config_and_stats none
     { options := { max_connections := 5, acquire_timeout_secs := 3 },
       size := 0, num_idle := 0 } rfl⟩

/-- The row the store assigns when a create against state `st` succeeds. -/
def freshRow (st : DbState) (payload : CreateUserRequest) : User :=
  { id := st.nextId, name := payload.name, email := payload.email,
    created_at := st.now, updated_at := st.now }

/-- The store state after a successful insert of `payload`. -/
def afterInsert (st : DbState) (payload : CreateUserRequest) : DbState :=
  { users := st.users ++ [freshRow st payload], now := st.now, nextId := st.nextId + 1 }

/-- Reduction of `create_user` when the driver does not fail: the outcome is
decided by whether a stored row already has the requested email. -/
theorem create_user_reduce (st : DbState) (payload : CreateUserRequest) :
    create_user st none payload =
      if (st.users.any (fun u => u.email == payload.email)) = true then
        (.error StatusCode.conflict, st)
      else
        (.ok (StatusCode.created, freshRow st payload), afterInsert st payload) := by
  by_cases hdup : (st.users.any (fun u => u.email == payload.email)) = true
  · simp [create_user, insertReturning, hdup, createErrorStatus,
      SqlxError.as_database_error, DatabaseError.is_unique_violation]
  · simp [create_user, insertReturning, hdup, freshRow, afterInsert]

/-- C1: when the store reports an error on create, the handler answers 409
Conflict exactly when that error is a uniqueness violation, answers 500
StorageFailure for every other store failure, and the two outcomes are
distinct status codes; moreover a create running after a successful create
with the same email observes Conflict. -/
theorem create_user_conflict_iff_unique_violation
    (st : DbState) (fault : Option SqlxError) (payload : CreateUserRequest) (e : SqlxError)
    (h : insertReturning st fault payload.name payload.email = .error e) :
    ((create_user st fault payload).1 = .error StatusCode.conflict
       ∨ (create_user st fault payload).1 = .error StatusCode.internalServerError)
  ∧ ((create_user st fault payload).1 = .error StatusCode.conflict
       ↔ e.isUniqueViolation = true)
  ∧ StatusCode.conflict.code = 409
  ∧ StatusCode.internalServerError.code = 500
  ∧ (∀ st0 u st1, create_user st0 none payload = (.ok (StatusCode.created, u), st1) →
      (create_user st1 none payload).1 = .error StatusCode.conflict) := by
  have hcu : (create_user st fault payload).1 = .error (createErrorStatus e) := by
    unfold create_user
    rw [h]
  refine ⟨?_, ?_, rfl, rfl, ?_⟩
  · rw [hcu]
    rcases e with ⟨⟨bv⟩⟩ | _
    · cases bv
      · right; rfl
      · left; rfl
    · right; rfl
  · rw [hcu]
    rcases e with ⟨⟨bv⟩⟩ | _
    · cases bv <;>
        simp [createErrorStatus, SqlxError.isUniqueViolation,
          SqlxError.as_database_error, DatabaseError.is_unique_violation]
    · simp [createErrorStatus, SqlxError.isUniqueViolation,
        SqlxError.as_database_error]
  · intro st0 u st1 hsucc
    rw [create_user_reduce] at hsucc
    by_cases hdup : (st0.users.any (fun v => v.email == payload.email)) = true
    · rw [if_pos hdup] at hsucc
      exact absurd (congrArg Prod.fst hsucc) (by simp)
    · rw [if_neg hdup] at hsucc
      have hst1 : st1 = afterInsert st0 payload := (congrArg Prod.snd hsucc).symm
      have hcond : ((afterInsert st0 payload).users.any
          (fun v => v.email == payload.email)) = true := by
        simp [afterInsert, freshRow]
      rw [hst1, create_user_reduce, if_pos hcond]

/-- Witness for C1 at an injected non-database driver failure. -/
theorem create_user_conflict_iff_unique_violation_witness :
    (create_user demoDb (some SqlxError.io)
        { name := "Alice", email := "alice@example.com" }).1 =
          .error StatusCode.conflict
  ∨ (create_user demoDb (some SqlxError.io)
        { name := "Alice", email := "alice@example.com" }).1 =
          .error StatusCode.internalServerError :=
  (create_user_conflict_iff_unique_violation demoDb (some SqlxError.io)
    { name := "Alice", email := "alice@example.com" } SqlxError.io rfl).1

/-- C6: a create that succeeds returns 201 with the row exactly as the store
stored it: the supplied name and email, both timestamps assigned by the store
clock, and an identifier freshly generated by the store (distinct from every
stored id), and that row is appended to the relation. -/
theorem create_user_success_populated (st : DbState) (payload : CreateUserRequest)
    (hdup : (st.users.any (fun u => u.email == payload.email)) = false)
    (hbound : idsBounded st) :
    ∃ u st1,
      create_user st none payload = (.ok (StatusCode.created, u), st1)
      ∧ StatusCode.created.code = 201
      ∧ u.name = payload.name ∧ u.email = payload.email
      ∧ u.created_at = st.now ∧ u.updated_at = st.now
      ∧ u.id ∉ st.users.map User.id
      ∧ st1.users = st.users ++ [u] := by
  refine ⟨freshRow st payload, afterInsert st payload,
    ?_, rfl, rfl, rfl, rfl, rfl, ?_, rfl⟩
  · rw [create_user_reduce, if_neg (by simp [hdup])]
  · intro hmem
    obtain ⟨v, hv, hid⟩ := List.mem_map.mp hmem
    have hvlt := hbound v hv
    rw [hid] at hvlt
    exact Nat.lt_irrefl st.nextId hvlt

/-- Witness for C6 at a concrete store and payload. -/
theorem create_user_success_populated_witness :
    ∃ u st1,
      create_user demoDb none { name := "Carol", email := "carol@example.com" } =
        (.ok (StatusCode.created, u), st1)
      ∧ StatusCode.created.code = 201
      ∧ u.name = "Carol" ∧ u.email = "carol@example.com"
      ∧ u.created_at = demoDb.now ∧ u.updated_at = demoDb.now
      ∧ u.id ∉ demoDb.users.map User.id
      ∧ st1.users = demoDb.users ++ [u] :=
  create_user_success_populated demoDb { name := "Carol", email := "carol@example.com" }
    (by decide) (by decide)

/-- C2: when the store reports an affected-row count (ids being unique, that
count is 0 or 1), the delete handler answers 204 No Content exactly when
exactly one row was affected and 404 NotFound exactly when zero rows were
affected; deleting the same identifier again always yields NotFound, never
success. -/
theorem delete_user_rows_affected_iff (st : DbState) (i : Nat) (h : idsNodup st) :
    ((delete_user st none i).1 = StatusCode.noContent
       ↔ st.users.countP (fun u => u.id == i) = 1)
  ∧ ((delete_user st none i).1 = StatusCode.notFound
       ↔ st.users.countP (fun u => u.id == i) = 0)
  ∧ StatusCode.noContent.code = 204
  ∧ StatusCode.notFound.code = 404
  ∧ (delete_user (delete_user st none i).2 none i).1 = StatusCode.notFound := by
  have hle : st.users.countP (fun u => u.id == i) ≤ 1 := countP_id_le_one st.users i h
  refine ⟨?_, ?_, rfl, rfl, ?_⟩
  · rw [delete_user_reduce]
    by_cases hz : st.users.countP (fun u => u.id == i) = 0
    · simp [hz]
    · have h1 : st.users.countP (fun u => u.id == i) = 1 := by omega
      simp [h1]
  · rw [delete_user_reduce]
    by_cases hz : st.users.countP (fun u => u.id == i) = 0
    · simp [hz]
    · simp [hz]
  · simp only [delete_user_reduce]
    simp [countP_filter_ne_self]

/-- Witness for C2 at a concrete store holding exactly one row with id 0. -/
theorem delete_user_rows_affected_iff_witness :
    ((delete_user demoDb none 0).1 = StatusCode.noContent
       ↔ demoDb.users.countP (fun u => u.id == 0) = 1)
  ∧ ((delete_user demoDb none 0).1 = StatusCode.notFound
       ↔ demoDb.users.countP (fun u => u.id == 0) = 0)
  ∧ StatusCode.noContent.code = 204
  ∧ StatusCode.notFound.code = 404
  ∧ (delete_user (delete_user demoDb none 0).2 none 0).1 = StatusCode.notFound :=
  delete_user_rows_affected_iff demoDb 0 (by decide)
